import Mathlib

/-
Verification of the Polymarket arbitrage pipeline core.

Shallow embedding of the three core stages of the repository:
market depth / slippage analysis (src/market_depth.py), cross-venue
event matching (src/event_matcher.py) and binary arbitrage detection
(src/arbitrage_engine.py).  Python floats and Decimals are modelled as
exact rationals (ℚ); Python `None` as `Option.none`; Python truthiness
of optional floats is modelled explicitly (`none` and `some 0` are
falsy).  Exceptions are modelled with `Except` where a function could
raise, and strategy functions that raise are modelled as returning
`none` for that strategy.
-/

namespace PolyArb

/-- Transcribed from src/market_depth.py, dataclass `PriceLevel`
(lines 18-23): an individual price level in the orderbook. -/
structure PriceLevel where
  price : ℚ
  size : ℚ
  cumulative_size : ℚ
deriving DecidableEq

/-- Transcribed from src/market_depth.py, dataclass `OrderbookDepth`
(lines 25-50): complete orderbook depth analysis.  All optional floats
are `Option ℚ` with default `none`, matching the dataclass defaults. -/
structure OrderbookDepth where
  market_id : String
  question_id : String
  best_bid : Option ℚ := none
  best_ask : Option ℚ := none
  spread : Option ℚ := none
  spread_percentage : Option ℚ := none
  mid_price : Option ℚ := none
  bid_levels : List PriceLevel := []
  ask_levels : List PriceLevel := []
  total_bid_depth : ℚ := 0
  total_ask_depth : ℚ := 0
  depth_imbalance : Option ℚ := none
deriving DecidableEq

/-- Transcribed from src/market_depth.py, dataclass `SlippageEstimate`
(lines 52-75): slippage calculation for a specific trade size and
direction, with the dataclass defaults. -/
structure SlippageEstimate where
  market_id : String
  side : String
  nominal_size : ℚ
  average_fill_price : Option ℚ := none
  expected_fill_price : Option ℚ := none
  slippage_absolute : Option ℚ := none
  slippage_percentage : Option ℚ := none
  price_impact : Option ℚ := none
  liquidity_consumed : Option ℚ := none
  can_execute : Bool := false
  max_executable_size : Option ℚ := none
  depth_exhausted : Bool := false
  levels_consumed : List (ℚ × ℚ) := []
deriving DecidableEq

/-- Transcribed from src/market_depth.py, the level-walking loop of
`MarketDepthAnalyzer.calculate_slippage` (lines 278-294): walks the
given levels in list order; at each level, if the remaining size is
≤ 0 the loop breaks, otherwise it fills `min remaining level.size`,
adds `fill × price` to the total cost and records the (price, fill)
pair.  Returns (final remaining size, total cost, consumed pairs). -/
def consumeLevels : List PriceLevel → ℚ → ℚ × ℚ × List (ℚ × ℚ)
  | [], remaining_size => (remaining_size, 0, [])
  | level :: rest, remaining_size =>
    if remaining_size ≤ 0 then (remaining_size, 0, [])
    else
      let fill_at_level := min remaining_size level.size
      let r := consumeLevels rest (remaining_size - fill_at_level)
      (r.1, fill_at_level * level.price + r.2.1, (level.price, fill_at_level) :: r.2.2)

/-- The side of the book consumed by a trade, from
src/market_depth.py lines 264-270: a buy consumes the asks, a sell
consumes the bids. -/
def consumingLevels (depth : OrderbookDepth) (side : String) : List PriceLevel :=
  if side = "buy" then depth.ask_levels else depth.bid_levels

/-- The best quote on the consumed side, from src/market_depth.py
lines 264-270: `best_ask` for a buy, `best_bid` for a sell. -/
def consumingQuote (depth : OrderbookDepth) (side : String) : Option ℚ :=
  if side = "buy" then depth.best_ask else depth.best_bid

/-- Sum of the sizes of a list of levels (the total depth available on
a side for the level walk). -/
def totalSize (levels : List PriceLevel) : ℚ :=
  (levels.map PriceLevel.size).sum

/-- Transcribed from src/market_depth.py,
`MarketDepthAnalyzer.calculate_slippage` (lines 246-319).  Returns the
default estimate when the consumed side has no levels or no best
quote; otherwise walks the levels and, only when the total cost is
positive, fills in the execution fields.  The guards
`expected_price ≠ 0`, `mid ≠ 0` and `total_available > 0` mirror the
Python truthiness tests on lines 306, 311 and 316. -/
def calculate_slippage (depth : OrderbookDepth) (side : String) (size : ℚ) :
    SlippageEstimate :=
  let base : SlippageEstimate :=
    { market_id := depth.market_id, side := side, nominal_size := size }
  match consumingLevels depth side, consumingQuote depth side with
  | [], _ => base
  | _ :: _, none => base
  | _ :: _, some expected_price =>
    let w := consumeLevels (consumingLevels depth side) size
    let remaining_size := w.1
    let total_cost := w.2.1
    if 0 < total_cost then
      let filled_size := size - remaining_size
      let avg := total_cost / filled_size
      { base with
        expected_fill_price := some expected_price
        average_fill_price := some avg
        levels_consumed := w.2.2
        can_execute := decide (remaining_size = 0)
        max_executable_size := some filled_size
        depth_exhausted := decide (0 < remaining_size)
        slippage_absolute :=
          if expected_price ≠ 0 then some |avg - expected_price| else none
        slippage_percentage :=
          if expected_price ≠ 0 then some (|avg - expected_price| / expected_price) else none
        price_impact :=
          match depth.mid_price with
          | some m => if m ≠ 0 then some (|avg - m| / m) else none
          | none => none
        liquidity_consumed :=
          let total_available :=
            if side = "buy" then depth.total_ask_depth else depth.total_bid_depth
          if 0 < total_available then some (filled_size / total_available) else none }
    else
      { base with expected_fill_price := some expected_price }

/-! ### Lemmas about the level walk -/

theorem consumeLevels_fillSum (ls : List PriceLevel) (s : ℚ) :
    (((consumeLevels ls s).2.2).map Prod.snd).sum = s - (consumeLevels ls s).1 := by
  induction ls generalizing s with
  | nil => simp [consumeLevels]
  | cons l rest ih =>
    by_cases h : s ≤ 0
    · simp [consumeLevels, h]
    · simp only [consumeLevels, if_neg h, List.map_cons, List.sum_cons]
      rw [ih]
      ring

theorem consumeLevels_nonpos (ls : List PriceLevel) (s : ℚ) (h : s ≤ 0) :
    consumeLevels ls s = (s, 0, []) := by
  cases ls with
  | nil => simp [consumeLevels]
  | cons l rest => simp [consumeLevels, h]

theorem consumeLevels_remaining (ls : List PriceLevel) (s : ℚ)
    (hs : 0 ≤ s) (hsz : ∀ l ∈ ls, 0 ≤ l.size) :
    (consumeLevels ls s).1 = max (s - totalSize ls) 0 := by
  induction ls generalizing s with
  | nil =>
    simp [consumeLevels, totalSize, max_eq_left hs]
  | cons l rest ih =>
    have hT : 0 ≤ totalSize rest := by
      have : ∀ x ∈ (rest.map PriceLevel.size), 0 ≤ x := by
        intro x hx
        obtain ⟨a, ha, rfl⟩ := List.mem_map.mp hx
        exact hsz a (List.mem_cons_of_mem _ ha)
      exact List.sum_nonneg this
    have hl : 0 ≤ l.size := hsz l (List.mem_cons_self l rest)
    have hTc : totalSize (l :: rest) = l.size + totalSize rest := by
      simp [totalSize]
    by_cases h : s ≤ 0
    · have hs0 : s = 0 := le_antisymm h hs
      subst hs0
      rw [consumeLevels_nonpos _ _ le_rfl, hTc]
      have h2 : 0 - (l.size + totalSize rest) ≤ 0 := by linarith
      simpa using (max_eq_right h2).symm
    · push_neg at h
      simp only [consumeLevels, if_neg (not_le.mpr h)]
      have hfill : 0 ≤ s - min s l.size := by
        have : min s l.size ≤ s := min_le_left _ _
        linarith
      rw [ih (s - min s l.size) hfill
        (fun a ha => hsz a (List.mem_cons_of_mem _ ha)), hTc]
      rcases le_total l.size s with hc | hc
      · rw [min_eq_right hc]
        congr 1
        ring
      · rw [min_eq_left hc]
        have h1 : s - s - totalSize rest ≤ 0 := by linarith
        have h2 : s - (l.size + totalSize rest) ≤ 0 := by linarith
        rw [max_eq_right h1, max_eq_right h2]

theorem consumeLevels_cost_nonneg (ls : List PriceLevel)
    (hsz : ∀ l ∈ ls, 0 ≤ l.size ∧ 0 ≤ l.price) (s : ℚ) :
    0 ≤ (consumeLevels ls s).2.1 := by
  induction ls generalizing s with
  | nil => simp [consumeLevels]
  | cons l rest ih =>
    by_cases h : s ≤ 0
    · simp [consumeLevels, h]
    · push_neg at h
      simp only [consumeLevels, if_neg (not_le.mpr h)]
      have hrest := ih (fun a ha => hsz a (List.mem_cons_of_mem _ ha)) (s - min s l.size)
      have hfill : 0 ≤ min s l.size :=
        le_min h.le (hsz l (List.mem_cons_self l rest)).1
      have hp : 0 ≤ l.price := (hsz l (List.mem_cons_self l rest)).2
      have := mul_nonneg hfill hp
      linarith

theorem consumeLevels_cost_pos (ls : List PriceLevel)
    (hsz : ∀ l ∈ ls, 0 < l.size ∧ 0 < l.price) (s : ℚ)
    (hs : 0 < s) (hne : ls ≠ []) :
    0 < (consumeLevels ls s).2.1 := by
  cases ls with
  | nil => exact absurd rfl hne
  | cons l rest =>
    simp only [consumeLevels, if_neg (not_le.mpr hs)]
    have hrest := consumeLevels_cost_nonneg rest
      (fun a ha => ⟨(hsz a (List.mem_cons_of_mem _ ha)).1.le,
                    (hsz a (List.mem_cons_of_mem _ ha)).2.le⟩)
      (s - min s l.size)
    have hfill : 0 < min s l.size := lt_min hs (hsz l (List.mem_cons_self l rest)).1
    have hp : 0 < l.price := (hsz l (List.mem_cons_self l rest)).2
    have := mul_pos hfill hp
    linarith

/-- Helper: on a nonempty consumed side with a best quote and a
positive total cost from the level walk, `calculate_slippage` fills in
every execution field from the walk's result. -/
theorem calculate_slippage_pos_eq (depth : OrderbookDepth) (side : String) (size q : ℚ)
    (l : PriceLevel) (ls : List PriceLevel)
    (hlv : consumingLevels depth side = l :: ls)
    (hq : consumingQuote depth side = some q)
    (hc : 0 < (consumeLevels (l :: ls) size).2.1) :
    calculate_slippage depth side size =
      (let w := consumeLevels (l :: ls) size
       let avg := w.2.1 / (size - w.1)
       { market_id := depth.market_id, side := side, nominal_size := size
         average_fill_price := some avg
         expected_fill_price := some q
         slippage_absolute := if q ≠ 0 then some |avg - q| else none
         slippage_percentage := if q ≠ 0 then some (|avg - q| / q) else none
         price_impact :=
           match depth.mid_price with
           | some m => if m ≠ 0 then some (|avg - m| / m) else none
           | none => none
         liquidity_consumed :=
           (let ta := if side = "buy" then depth.total_ask_depth else depth.total_bid_depth
            if 0 < ta then some ((size - w.1) / ta) else none)
         can_execute := decide (w.1 = 0)
         max_executable_size := some (size - w.1)
         depth_exhausted := decide (0 < w.1)
         levels_consumed := w.2.2 }) := by
  unfold calculate_slippage
  rw [hlv, hq]
  simp only [if_pos hc]

/-- Helper: when the consumed side is empty, the best quote is absent,
or the level walk produces no positive total cost, every execution
field of the estimate keeps its dataclass default. -/
theorem calculate_slippage_default_fields (depth : OrderbookDepth) (side : String) (size : ℚ)
    (h : consumingLevels depth side = [] ∨ consumingQuote depth side = none ∨
         (consumeLevels (consumingLevels depth side) size).2.1 ≤ 0) :
    (calculate_slippage depth side size).can_execute = false ∧
    (calculate_slippage depth side size).depth_exhausted = false ∧
    (calculate_slippage depth side size).max_executable_size = none ∧
    (calculate_slippage depth side size).average_fill_price = none ∧
    (calculate_slippage depth side size).slippage_absolute = none ∧
    (calculate_slippage depth side size).slippage_percentage = none ∧
    (calculate_slippage depth side size).price_impact = none ∧
    (calculate_slippage depth side size).liquidity_consumed = none ∧
    (calculate_slippage depth side size).levels_consumed = [] := by
  rcases hlv : consumingLevels depth side with _ | ⟨l, ls⟩
  · unfold calculate_slippage
    rw [hlv]
    simp
  · rcases hq : consumingQuote depth side with _ | q
    · unfold calculate_slippage
      rw [hlv, hq]
      simp
    · rcases h with h | h | h
      · exact absurd (hlv.symm.trans h) (by simp)
      · exact absurd (hq.symm.trans h) (by simp)
      · unfold calculate_slippage
        rw [hlv, hq]
        rw [hlv] at h
        simp only [if_neg (not_lt.mpr h)]
        simp

/-- Helper: the total cost of the walk equals the sum of price × fill
over the consumed (price, fill) pairs. -/
theorem consumeLevels_costSum (ls : List PriceLevel) (s : ℚ) :
    (((consumeLevels ls s).2.2).map (fun p => p.1 * p.2)).sum = (consumeLevels ls s).2.1 := by
  induction ls generalizing s with
  | nil => simp [consumeLevels]
  | cons l rest ih =>
    by_cases h : s ≤ 0
    · simp [consumeLevels, h]
    · simp only [consumeLevels, if_neg h, List.map_cons, List.sum_cons]
      rw [ih]
      ring

/-- Helper: with a nonempty consumed side of positive-size,
positive-price levels, a positive request fills `min size total` and
that is what `max_executable_size` reports. -/
theorem calculate_slippage_maxExec (depth : OrderbookDepth) (side : String) (q : ℚ)
    (l : PriceLevel) (ls : List PriceLevel)
    (hlv : consumingLevels depth side = l :: ls)
    (hq : consumingQuote depth side = some q)
    (hpos : ∀ a ∈ l :: ls, 0 < a.size ∧ 0 < a.price)
    (s : ℚ) (hs : 0 < s) :
    (calculate_slippage depth side s).max_executable_size =
      some (min s (totalSize (l :: ls))) := by
  have hc := consumeLevels_cost_pos (l :: ls) hpos s hs (by simp)
  rw [calculate_slippage_pos_eq depth side s q l ls hlv hq hc]
  dsimp only
  congr 1
  rw [consumeLevels_remaining (l :: ls) s hs.le (fun a ha => (hpos a ha).1.le)]
  rcases le_total s (totalSize (l :: ls)) with hc2 | hc2
  · rw [max_eq_right (by linarith), min_eq_left hc2]
    ring
  · rw [max_eq_left (by linarith), min_eq_right hc2]
    ring

/-- The worked orderbook of the spec's example: ask levels
[(0.50, 100), (0.52, 200)] with best ask 0.50. -/
def exampleDepth : OrderbookDepth :=
  { market_id := "mkt_a", question_id := "q"
    best_ask := some (1/2)
    ask_levels := [⟨1/2, 100, 0⟩, ⟨13/25, 200, 0⟩] }

/-- An orderbook with no levels at all (empty book). -/
def emptyDepth : OrderbookDepth := { market_id := "mkt_empty", question_id := "q" }

/-- C2: on a consuming side with levels and a best quote, when the
greedy walk consumes a positive total cost, `calculate_slippage`
reports the walk's consumed (price, fill) pairs, average fill price =
total cost of the consumed pairs / filled size, full execution exactly
when the walk exhausted the request; and on ask levels
[(0.50, 100), (0.52, 200)] a buy of 250 yields average fill price
0.512, can_execute = true and max_executable_size = 250. -/
theorem C2_calculate_slippage_greedy (depth : OrderbookDepth) (side : String) (size q : ℚ)
    (l : PriceLevel) (ls : List PriceLevel)
    (hlv : consumingLevels depth side = l :: ls)
    (hq : consumingQuote depth side = some q)
    (hc : 0 < (consumeLevels (l :: ls) size).2.1) :
    ((calculate_slippage depth side size).levels_consumed = (consumeLevels (l :: ls) size).2.2 ∧
     (calculate_slippage depth side size).average_fill_price =
       some ((((calculate_slippage depth side size).levels_consumed.map (fun p => p.1 * p.2)).sum) /
             (((calculate_slippage depth side size).levels_consumed.map Prod.snd).sum)) ∧
     (calculate_slippage depth side size).can_execute =
       decide ((consumeLevels (l :: ls) size).1 = 0) ∧
     (calculate_slippage depth side size).max_executable_size =
       some (((calculate_slippage depth side size).levels_consumed.map Prod.snd).sum)) ∧
    ((calculate_slippage exampleDepth "buy" 250).average_fill_price = some (0.512 : ℚ) ∧
     (calculate_slippage exampleDepth "buy" 250).can_execute = true ∧
     (calculate_slippage exampleDepth "buy" 250).max_executable_size = some 250) := by
  constructor
  · rw [calculate_slippage_pos_eq depth side size q l ls hlv hq hc]
    dsimp only
    refine ⟨rfl, ?_, rfl, ?_⟩
    · rw [consumeLevels_costSum, consumeLevels_fillSum]
    · rw [consumeLevels_fillSum]
  · refine ⟨?_, ?_, ?_⟩ <;>
      · simp [calculate_slippage, consumingLevels, consumingQuote, exampleDepth, consumeLevels]
        norm_num

/-- C2 witness: the general part of C2 instantiated on the worked
example book with a buy of 250. -/
theorem C2_witness :
    consumingLevels exampleDepth "buy" =
      (⟨1/2, 100, 0⟩ : PriceLevel) :: [(⟨13/25, 200, 0⟩ : PriceLevel)] ∧
    consumingQuote exampleDepth "buy" = some (1/2) ∧
    0 < (consumeLevels ((⟨1/2, 100, 0⟩ : PriceLevel) :: [(⟨13/25, 200, 0⟩ : PriceLevel)]) 250).2.1 ∧
    (calculate_slippage exampleDepth "buy" 250).average_fill_price = some (0.512 : ℚ) := by
  have h1 : consumingLevels exampleDepth "buy" =
      (⟨1/2, 100, 0⟩ : PriceLevel) :: [(⟨13/25, 200, 0⟩ : PriceLevel)] := by
    simp [consumingLevels, exampleDepth]
  have h2 : consumingQuote exampleDepth "buy" = some (1/2) := by
    simp [consumingQuote, exampleDepth]
  have h3 : 0 < (consumeLevels ((⟨1/2, 100, 0⟩ : PriceLevel) ::
      [(⟨13/25, 200, 0⟩ : PriceLevel)]) 250).2.1 := by
    simp [consumeLevels]
    norm_num
  exact ⟨h1, h2, h3,
    (C2_calculate_slippage_greedy exampleDepth "buy" 250 (1/2) _ _ h1 h2 h3).2.1⟩

/-- C3 counterexample: on an empty book a buy of 5 exceeds the total
available size (0), yet the estimate keeps `depth_exhausted = false`
and has no `max_executable_size`, contradicting the claim's
unconditional `depth_exhausted = true` and `max_executable_size =
sum of consumed sizes`. -/
theorem C3_counterexample :
    totalSize (consumingLevels emptyDepth "buy") < 5 ∧
    (calculate_slippage emptyDepth "buy" 5).can_execute = false ∧
    (calculate_slippage emptyDepth "buy" 5).depth_exhausted = false ∧
    (calculate_slippage emptyDepth "buy" 5).max_executable_size = none := by
  refine ⟨by norm_num [totalSize, consumingLevels, emptyDepth], ?_, ?_, ?_⟩ <;>
    simp [calculate_slippage, consumingLevels, consumingQuote, emptyDepth]

/-- C3 (amended): provided the consuming side has levels with positive
sizes and prices and a best quote is present, a request exceeding the
side's total size yields can_execute = false, depth_exhausted = true
and max_executable_size = sum of all consumed level sizes; and for a
fixed such depth and side, max_executable_size is monotone in the
(positive) requested size. -/
theorem C3_exhaustion_and_monotone (depth : OrderbookDepth) (side : String) (size q : ℚ)
    (l : PriceLevel) (ls : List PriceLevel)
    (hlv : consumingLevels depth side = l :: ls)
    (hq : consumingQuote depth side = some q)
    (hpos : ∀ a ∈ l :: ls, 0 < a.size ∧ 0 < a.price)
    (hexceed : totalSize (l :: ls) < size) :
    ((calculate_slippage depth side size).can_execute = false ∧
     (calculate_slippage depth side size).depth_exhausted = true ∧
     (calculate_slippage depth side size).max_executable_size =
       some ((((calculate_slippage depth side size).levels_consumed).map Prod.snd).sum)) ∧
    (∀ s1 s2 : ℚ, 0 < s1 → s1 ≤ s2 →
      ∃ m1 m2, (calculate_slippage depth side s1).max_executable_size = some m1 ∧
               (calculate_slippage depth side s2).max_executable_size = some m2 ∧
               m1 ≤ m2) := by
  have hT : 0 < totalSize (l :: ls) := by
    have h1 : 0 < l.size := (hpos l (List.mem_cons_self l ls)).1
    have h2 : 0 ≤ totalSize ls := by
      have : ∀ x ∈ (ls.map PriceLevel.size), 0 ≤ x := by
        intro x hx
        obtain ⟨a, ha, rfl⟩ := List.mem_map.mp hx
        exact (hpos a (List.mem_cons_of_mem _ ha)).1.le
      exact List.sum_nonneg this
    have : totalSize (l :: ls) = l.size + totalSize ls := by simp [totalSize]
    linarith
  have hs : 0 < size := lt_trans hT hexceed
  have hc := consumeLevels_cost_pos (l :: ls) hpos size hs (by simp)
  have hrem : (consumeLevels (l :: ls) size).1 = size - totalSize (l :: ls) := by
    rw [consumeLevels_remaining (l :: ls) size hs.le (fun a ha => (hpos a ha).1.le)]
    exact max_eq_left (by linarith)
  constructor
  · rw [calculate_slippage_pos_eq depth side size q l ls hlv hq hc]
    dsimp only
    refine ⟨?_, ?_, ?_⟩
    · rw [hrem]
      simp only [decide_eq_false_iff_not]
      intro hcontra
      linarith
    · rw [hrem]
      simp only [decide_eq_true_eq]
      linarith
    · rw [consumeLevels_fillSum]
  · intro s1 s2 hs1 hs12
    refine ⟨min s1 (totalSize (l :: ls)), min s2 (totalSize (l :: ls)),
      calculate_slippage_maxExec depth side q l ls hlv hq hpos s1 hs1,
      calculate_slippage_maxExec depth side q l ls hlv hq hpos s2 (lt_of_lt_of_le hs1 hs12),
      min_le_min_right _ hs12⟩

/-- C3 witness: the amended statement instantiated on the worked
example book with a buy of 400 (> 300 available). -/
theorem C3_witness :
    totalSize ((⟨1/2, 100, 0⟩ : PriceLevel) :: [(⟨13/25, 200, 0⟩ : PriceLevel)]) < 400 ∧
    (calculate_slippage exampleDepth "buy" 400).can_execute = false ∧
    (calculate_slippage exampleDepth "buy" 400).depth_exhausted = true := by
  have h1 : consumingLevels exampleDepth "buy" =
      (⟨1/2, 100, 0⟩ : PriceLevel) :: [(⟨13/25, 200, 0⟩ : PriceLevel)] := by
    simp [consumingLevels, exampleDepth]
  have h2 : consumingQuote exampleDepth "buy" = some (1/2) := by
    simp [consumingQuote, exampleDepth]
  have h3 : ∀ a ∈ (⟨1/2, 100, 0⟩ : PriceLevel) :: [(⟨13/25, 200, 0⟩ : PriceLevel)],
      0 < a.size ∧ 0 < a.price := by
    intro a ha
    simp at ha
    rcases ha with rfl | rfl <;> exact ⟨by norm_num, by norm_num⟩
  have h4 : totalSize ((⟨1/2, 100, 0⟩ : PriceLevel) ::
      [(⟨13/25, 200, 0⟩ : PriceLevel)]) < 400 := by
    norm_num [totalSize]
  have H := C3_exhaustion_and_monotone exampleDepth "buy" 400 (1/2) _ _ h1 h2 h3 h4
  exact ⟨h4, H.1.1, H.1.2.1⟩

/-- C10: whenever nothing of positive cost is filled — nonpositive
request, empty consuming side, absent best quote, or a zero-cost walk —
the estimate keeps its dataclass defaults; in particular a size-0
request reports can_execute = false. -/
theorem C10_default_estimate (depth : OrderbookDepth) (side : String) (size : ℚ)
    (h : size ≤ 0 ∨ consumingLevels depth side = [] ∨ consumingQuote depth side = none ∨
         (consumeLevels (consumingLevels depth side) size).2.1 = 0) :
    (calculate_slippage depth side size).can_execute = false ∧
    (calculate_slippage depth side size).depth_exhausted = false ∧
    (calculate_slippage depth side size).max_executable_size = none ∧
    (calculate_slippage depth side size).average_fill_price = none ∧
    (calculate_slippage depth side size).slippage_absolute = none ∧
    (calculate_slippage depth side size).slippage_percentage = none ∧
    (calculate_slippage depth side size).price_impact = none ∧
    (calculate_slippage depth side size).liquidity_consumed = none := by
  have H := calculate_slippage_default_fields depth side size ?_
  · exact ⟨H.1, H.2.1, H.2.2.1, H.2.2.2.1, H.2.2.2.2.1, H.2.2.2.2.2.1,
      H.2.2.2.2.2.2.1, H.2.2.2.2.2.2.2.1⟩
  · rcases h with h | h | h | h
    · right; right
      rw [consumeLevels_nonpos _ _ h]
    · exact Or.inl h
    · exact Or.inr (Or.inl h)
    · exact Or.inr (Or.inr (le_of_eq h))

/-- C10 witness: a size-0 buy against the worked example book keeps
all defaults. -/
theorem C10_witness :
    (0 : ℚ) ≤ 0 ∧
    (calculate_slippage exampleDepth "buy" 0).can_execute = false ∧
    (calculate_slippage exampleDepth "buy" 0).max_executable_size = none := by
  have H := C10_default_estimate exampleDepth "buy" 0 (Or.inl le_rfl)
  exact ⟨le_rfl, H.1, H.2.2.1⟩

/-! ### Two-leg arbitrage slippage and feasibility -/

/-- Python truthiness of an optional float: `None` and `0.0` are
falsy, every other value truthy. -/
def pyTruthy : Option ℚ → Bool
  | none => false
  | some v => decide (v ≠ 0)

/-- Python `x or y` on an optional float `x`: yields `x`'s value when
truthy, otherwise `y`. -/
def pyOr (o : Option ℚ) (y : ℚ) : ℚ :=
  match o with
  | some v => if v ≠ 0 then v else y
  | none => y

/-- Transcribed from src/market_depth.py lines 343-344: the mid price
used by `calculate_arbitrage_slippage`.  The Python conditional
expression parses as
`(mid_price or (best_bid + best_ask) / 2) if (best_bid and best_ask)
else None`, so the result is `None` whenever best bid or best ask is
absent (or zero, by truthiness), even when `mid_price` is set. -/
def pyMid (d : OrderbookDepth) : Option ℚ :=
  if pyTruthy d.best_bid && pyTruthy d.best_ask then
    some (pyOr d.mid_price ((d.best_bid.getD 0 + d.best_ask.getD 0) / 2))
  else none

/-- The result dictionary of `calculate_arbitrage_slippage`
(src/market_depth.py lines 340-363); `none` models an absent key. -/
structure ArbSlippageResults where
  buy_leg : Option SlippageEstimate := none
  sell_leg : Option SlippageEstimate := none
  buy_venue : Option String := none
  sell_venue : Option String := none
deriving DecidableEq

/-- Transcribed from src/market_depth.py,
`MarketDepthAnalyzer.calculate_arbitrage_slippage` (lines 321-363):
computes both venues' mid prices; if either is unavailable returns the
empty dictionary; if `mid_a < mid_b` buys on A and sells on B,
otherwise buys on B and sells on A. -/
def calculate_arbitrage_slippage (depth_a depth_b : OrderbookDepth) (size : ℚ) :
    ArbSlippageResults :=
  match pyMid depth_a, pyMid depth_b with
  | some mid_a, some mid_b =>
    if mid_a < mid_b then
      { buy_leg := some (calculate_slippage depth_a "buy" size)
        sell_leg := some (calculate_slippage depth_b "sell" size)
        buy_venue := some depth_a.market_id
        sell_venue := some depth_b.market_id }
    else
      { buy_leg := some (calculate_slippage depth_b "buy" size)
        sell_leg := some (calculate_slippage depth_a "sell" size)
        buy_venue := some depth_b.market_id
        sell_venue := some depth_a.market_id }
  | _, _ => {}

/-- The distinct human-readable constraint strings appended by
`assess_arbitrage_feasibility` (src/market_depth.py lines 388-426),
one constructor per f-string, carrying the interpolated values. -/
inductive Constraint where
  | missingSlippageCalculations
  | buyLegCannotExecute (max_size : Option ℚ)
  | sellLegCannotExecute (max_size : Option ℚ)
  | buySlippageTooHigh (slippage max_slippage : ℚ)
  | sellSlippageTooHigh (slippage max_slippage : ℚ)
  | netEdgeTooLow (net_edge target_edge : ℚ)
deriving DecidableEq

/-- The assessment dictionary built by `assess_arbitrage_feasibility`
(src/market_depth.py lines 380-386). -/
structure FeasibilityAssessment where
  feasible : Bool
  max_size : ℚ
  total_slippage : ℚ
  net_edge_after_slippage : ℚ
  constraints : List Constraint
deriving DecidableEq

/-- Transcribed from src/market_depth.py,
`MarketDepthAnalyzer.assess_arbitrage_feasibility` (lines 365-435).
Each failed check appends its constraint; `max_size` is the min of the
two `max_executable_size` values when both are truthy, else 0; the net
edge is computed (and checked against `target_edge`) only when both
average fill prices are truthy; finally `feasible` requires an empty
constraint list, `max_size > 0` and total slippage ≤ 2·max_slippage. -/
def assess_arbitrage_feasibility (slippage_results : ArbSlippageResults)
    (target_edge max_slippage : ℚ) : FeasibilityAssessment :=
  match slippage_results.buy_leg, slippage_results.sell_leg with
  | some buy_leg, some sell_leg =>
    let c_buy_exec : List Constraint :=
      if buy_leg.can_execute then [] else
        [Constraint.buyLegCannotExecute buy_leg.max_executable_size]
    let c_sell_exec : List Constraint :=
      if sell_leg.can_execute then [] else
        [Constraint.sellLegCannotExecute sell_leg.max_executable_size]
    let max_size : ℚ :=
      if pyTruthy buy_leg.max_executable_size && pyTruthy sell_leg.max_executable_size then
        min (buy_leg.max_executable_size.getD 0) (sell_leg.max_executable_size.getD 0)
      else 0
    let buy_slippage := (buy_leg.slippage_percentage).getD 0
    let sell_slippage := (sell_leg.slippage_percentage).getD 0
    let total_slippage := buy_slippage + sell_slippage
    let c_buy_slip : List Constraint :=
      if max_slippage < buy_slippage then
        [Constraint.buySlippageTooHigh buy_slippage max_slippage] else []
    let c_sell_slip : List Constraint :=
      if max_slippage < sell_slippage then
        [Constraint.sellSlippageTooHigh sell_slippage max_slippage] else []
    let net_and_c :=
      if pyTruthy buy_leg.average_fill_price && pyTruthy sell_leg.average_fill_price then
        let gross_edge := (sell_leg.average_fill_price.getD 0 -
          buy_leg.average_fill_price.getD 0) / buy_leg.average_fill_price.getD 0
        let net_edge := gross_edge - total_slippage
        (net_edge,
         if net_edge < target_edge then [Constraint.netEdgeTooLow net_edge target_edge] else [])
      else ((0 : ℚ), ([] : List Constraint))
    let constraints :=
      c_buy_exec ++ c_sell_exec ++ c_buy_slip ++ c_sell_slip ++ net_and_c.2
    { feasible := decide (constraints = []) && decide (0 < max_size) &&
        decide (total_slippage ≤ max_slippage * 2)
      max_size := max_size
      total_slippage := total_slippage
      net_edge_after_slippage := net_and_c.1
      constraints := constraints }
  | _, _ =>
    { feasible := false, max_size := 0, total_slippage := 0
      net_edge_after_slippage := 0
      constraints := [Constraint.missingSlippageCalculations] }

/-- Two books with computable and equal mid prices (0.5 each). -/
def depthEqA : OrderbookDepth :=
  { market_id := "venue_a", question_id := "q"
    best_bid := some (1/2), best_ask := some (1/2) }

/-- Same book as `depthEqA` under a different venue id. -/
def depthEqB : OrderbookDepth :=
  { market_id := "venue_b", question_id := "q"
    best_bid := some (1/2), best_ask := some (1/2) }

/-- A cheaper book: mid price 0.4. -/
def depthCheap : OrderbookDepth :=
  { market_id := "venue_cheap", question_id := "q"
    best_bid := some (2/5), best_ask := some (2/5) }

/-- A dearer book: mid price 0.6. -/
def depthDear : OrderbookDepth :=
  { market_id := "venue_dear", question_id := "q"
    best_bid := some (3/5), best_ask := some (3/5) }

/-- C8 counterexample: with both mid prices computable and equal
(0.5 = 0.5), swapping the argument order flips the buy venue, so the
assignment is not independent of argument order as claimed. -/
theorem C8_counterexample :
    pyMid depthEqA = some (1/2) ∧ pyMid depthEqB = some (1/2) ∧
    (calculate_arbitrage_slippage depthEqA depthEqB 10).buy_venue = some "venue_b" ∧
    (calculate_arbitrage_slippage depthEqB depthEqA 10).buy_venue = some "venue_a" := by
  have ha : pyMid depthEqA = some (1/2) := by
    simp [pyMid, pyTruthy, pyOr, depthEqA]
  have hb : pyMid depthEqB = some (1/2) := by
    simp [pyMid, pyTruthy, pyOr, depthEqB]
  refine ⟨ha, hb, ?_, ?_⟩ <;>
    · simp only [calculate_arbitrage_slippage, ha, hb]
      norm_num [depthEqA, depthEqB]

/-- C8 (amended): whenever both mid prices are computable and
distinct, the buy leg and buy venue go to the venue with the cheaper
mid and the sell leg to the dearer one, and swapping the two depth
arguments leaves the whole assignment unchanged. -/
theorem C8_buy_cheaper_venue (a b : OrderbookDepth) (s ma mb : ℚ)
    (hma : pyMid a = some ma) (hmb : pyMid b = some mb) (hne : ma ≠ mb) :
    ((calculate_arbitrage_slippage a b s).buy_venue =
       some (if ma < mb then a.market_id else b.market_id) ∧
     (calculate_arbitrage_slippage a b s).sell_venue =
       some (if ma < mb then b.market_id else a.market_id) ∧
     (calculate_arbitrage_slippage a b s).buy_leg =
       some (calculate_slippage (if ma < mb then a else b) "buy" s) ∧
     (calculate_arbitrage_slippage a b s).sell_leg =
       some (calculate_slippage (if ma < mb then b else a) "sell" s)) ∧
    ((calculate_arbitrage_slippage b a s).buy_venue =
       (calculate_arbitrage_slippage a b s).buy_venue ∧
     (calculate_arbitrage_slippage b a s).sell_venue =
       (calculate_arbitrage_slippage a b s).sell_venue ∧
     (calculate_arbitrage_slippage b a s).buy_leg =
       (calculate_arbitrage_slippage a b s).buy_leg ∧
     (calculate_arbitrage_slippage b a s).sell_leg =
       (calculate_arbitrage_slippage a b s).sell_leg) := by
  rcases lt_or_gt_of_ne hne with h | h
  · have h2 : ¬ mb < ma := not_lt.mpr h.le
    simp [calculate_arbitrage_slippage, hma, hmb, h, h2]
  · have h2 : ¬ ma < mb := not_lt.mpr h.le
    simp [calculate_arbitrage_slippage, hma, hmb, h, h2]

/-- C8 witness: the amended statement on two books with mids 0.4 and
0.6 — the cheap venue always receives the buy leg. -/
theorem C8_witness :
    pyMid depthCheap = some (2/5) ∧ pyMid depthDear = some (3/5) ∧
    (2/5 : ℚ) ≠ 3/5 ∧
    (calculate_arbitrage_slippage depthCheap depthDear 10).buy_venue = some "venue_cheap" ∧
    (calculate_arbitrage_slippage depthDear depthCheap 10).buy_venue = some "venue_cheap" := by
  have ha : pyMid depthCheap = some (2/5) := by
    simp [pyMid, pyTruthy, pyOr, depthCheap]
  have hb : pyMid depthDear = some (3/5) := by
    simp [pyMid, pyTruthy, pyOr, depthDear]
  have hne : (2/5 : ℚ) ≠ 3/5 := by norm_num
  have H := C8_buy_cheaper_venue depthCheap depthDear 10 (2/5) (3/5) ha hb hne
  have hlt : ((2:ℚ)/5) < 3/5 := by norm_num
  refine ⟨ha, hb, hne, ?_, ?_⟩
  · rw [H.1.1, if_pos hlt]
    rfl
  · rw [H.2.1, H.1.1, if_pos hlt]
    rfl


/-- A fully executable buy leg whose slippage (1.5%) exceeds a 1%
per-leg budget while the combined two-leg slippage (1.6%) stays within
the 2% combined budget. -/
def buyLegCE : SlippageEstimate :=
  { market_id := "venue_a", side := "buy", nominal_size := 100
    average_fill_price := some (1/2), expected_fill_price := some (1/2)
    slippage_percentage := some (3/200)
    can_execute := true, max_executable_size := some 100 }

/-- A fully executable sell leg with 0.1% slippage. -/
def sellLegCE : SlippageEstimate :=
  { market_id := "venue_b", side := "sell", nominal_size := 100
    average_fill_price := some (3/5), expected_fill_price := some (3/5)
    slippage_percentage := some (1/1000)
    can_execute := true, max_executable_size := some 100 }

/-- Two-leg slippage results combining `buyLegCE` and `sellLegCE`. -/
def resultsCE : ArbSlippageResults :=
  { buy_leg := some buyLegCE, sell_leg := some sellLegCE
    buy_venue := some "venue_a", sell_venue := some "venue_b" }

/-- C1 counterexample: with target_edge 2% and max_slippage 1%, both
legs fully execute, max_size = 100 > 0, combined slippage 1.6% ≤
2×1%, and the net edge 18.4% ≥ 2%, yet `feasible = false`, because
the code also demands each single leg's slippage ≤ max_slippage and
the 1.5% buy leg fails that check. -/
theorem C1_counterexample :
    buyLegCE.can_execute = true ∧ sellLegCE.can_execute = true ∧
    (assess_arbitrage_feasibility resultsCE (2/100) (1/100)).max_size = 100 ∧
    (assess_arbitrage_feasibility resultsCE (2/100) (1/100)).total_slippage ≤ 2 * (1/100) ∧
    (2/100 : ℚ) ≤ (assess_arbitrage_feasibility resultsCE (2/100) (1/100)).net_edge_after_slippage ∧
    (assess_arbitrage_feasibility resultsCE (2/100) (1/100)).feasible = false := by
  refine ⟨rfl, rfl, ?_, ?_, ?_, ?_⟩ <;>
    simp [assess_arbitrage_feasibility, resultsCE, buyLegCE, sellLegCE, pyTruthy] <;>
    norm_num

/-- Helper: membership in an if-guarded empty-or-singleton list. -/
theorem mem_ite_nil_cons {c : Prop} [Decidable c] (x y : Constraint) :
    (x ∈ if c then ([] : List Constraint) else [y]) ↔ (¬ c ∧ x = y) := by
  split_ifs <;> simp_all

/-- Helper: membership in an if-guarded singleton-or-empty list. -/
theorem mem_ite_cons_nil {c : Prop} [Decidable c] (x y : Constraint) :
    (x ∈ if c then [y] else ([] : List Constraint)) ↔ (c ∧ x = y) := by
  split_ifs <;> simp_all

/-- C1 (amended): with both legs present, `feasible = true` exactly
when both legs fully execute, each single leg's slippage is ≤
max_slippage (which forces the combined slippage ≤ 2×max_slippage),
the net edge computed from both average fill prices is ≥ target_edge
whenever both prices are available and nonzero, and the max_size (the
min of the two max_executable_size values when both are present and
nonzero, else 0) is positive; and every failed condition contributes
its own constraint entry, independently of the others. -/
theorem C1_feasibility (res : ArbSlippageResults) (b s : SlippageEstimate) (t m : ℚ)
    (hb : res.buy_leg = some b) (hs : res.sell_leg = some s) :
    ((assess_arbitrage_feasibility res t m).feasible = true ↔
      (b.can_execute = true ∧ s.can_execute = true ∧
       b.slippage_percentage.getD 0 ≤ m ∧ s.slippage_percentage.getD 0 ≤ m ∧
       ((pyTruthy b.average_fill_price && pyTruthy s.average_fill_price) = true →
         t ≤ (s.average_fill_price.getD 0 - b.average_fill_price.getD 0) /
              b.average_fill_price.getD 0 -
              (b.slippage_percentage.getD 0 + s.slippage_percentage.getD 0)) ∧
       0 < (assess_arbitrage_feasibility res t m).max_size)) ∧
    ((assess_arbitrage_feasibility res t m).feasible = true →
      (assess_arbitrage_feasibility res t m).total_slippage ≤ 2 * m) ∧
    ((assess_arbitrage_feasibility res t m).max_size =
      (if pyTruthy b.max_executable_size && pyTruthy s.max_executable_size then
        min (b.max_executable_size.getD 0) (s.max_executable_size.getD 0) else 0)) ∧
    (Constraint.buyLegCannotExecute b.max_executable_size ∈
        (assess_arbitrage_feasibility res t m).constraints ↔ b.can_execute = false) ∧
    (Constraint.sellLegCannotExecute s.max_executable_size ∈
        (assess_arbitrage_feasibility res t m).constraints ↔ s.can_execute = false) ∧
    (Constraint.buySlippageTooHigh (b.slippage_percentage.getD 0) m ∈
        (assess_arbitrage_feasibility res t m).constraints ↔
      m < b.slippage_percentage.getD 0) ∧
    (Constraint.sellSlippageTooHigh (s.slippage_percentage.getD 0) m ∈
        (assess_arbitrage_feasibility res t m).constraints ↔
      m < s.slippage_percentage.getD 0) ∧
    (Constraint.netEdgeTooLow
        ((s.average_fill_price.getD 0 - b.average_fill_price.getD 0) /
          b.average_fill_price.getD 0 -
          (b.slippage_percentage.getD 0 + s.slippage_percentage.getD 0)) t ∈
        (assess_arbitrage_feasibility res t m).constraints ↔
      ((pyTruthy b.average_fill_price && pyTruthy s.average_fill_price) = true ∧
       (s.average_fill_price.getD 0 - b.average_fill_price.getD 0) /
          b.average_fill_price.getD 0 -
          (b.slippage_percentage.getD 0 + s.slippage_percentage.getD 0) < t)) := by
  refine ⟨?_, ?_, ?_, ?_, ?_, ?_, ?_, ?_⟩
  · simp only [assess_arbitrage_feasibility, hb, hs]
    simp only [Bool.and_eq_true, decide_eq_true_eq, List.append_eq_nil]
    split_ifs <;> simp_all
    all_goals intros
    all_goals linarith
  · simp only [assess_arbitrage_feasibility, hb, hs]
    intro h
    simp only [Bool.and_eq_true, decide_eq_true_eq] at h
    linarith [h.2]
  · simp only [assess_arbitrage_feasibility, hb, hs]
  · simp only [assess_arbitrage_feasibility, hb, hs]
    simp [List.mem_append, mem_ite_nil_cons, mem_ite_cons_nil, apply_ite (f := Prod.snd),
      Bool.not_eq_true]
  · simp only [assess_arbitrage_feasibility, hb, hs]
    simp [List.mem_append, mem_ite_nil_cons, mem_ite_cons_nil, apply_ite (f := Prod.snd),
      Bool.not_eq_true]
  · simp only [assess_arbitrage_feasibility, hb, hs]
    simp [List.mem_append, mem_ite_nil_cons, mem_ite_cons_nil, apply_ite (f := Prod.snd),
      Bool.not_eq_true]
  · simp only [assess_arbitrage_feasibility, hb, hs]
    simp [List.mem_append, mem_ite_nil_cons, mem_ite_cons_nil, apply_ite (f := Prod.snd),
      Bool.not_eq_true]
  · simp only [assess_arbitrage_feasibility, hb, hs]
    simp [List.mem_append, mem_ite_nil_cons, mem_ite_cons_nil, apply_ite (f := Prod.snd),
      Bool.not_eq_true]

/-- A buy leg passing every per-leg check (0.5% slippage). -/
def buyLegOK : SlippageEstimate :=
  { market_id := "venue_a", side := "buy", nominal_size := 100
    average_fill_price := some (1/2), expected_fill_price := some (1/2)
    slippage_percentage := some (1/200)
    can_execute := true, max_executable_size := some 100 }

/-- A sell leg passing every per-leg check (0.5% slippage). -/
def sellLegOK : SlippageEstimate :=
  { market_id := "venue_b", side := "sell", nominal_size := 100
    average_fill_price := some (3/5), expected_fill_price := some (3/5)
    slippage_percentage := some (1/200)
    can_execute := true, max_executable_size := some 100 }

/-- Two-leg slippage results combining `buyLegOK` and `sellLegOK`. -/
def resultsOK : ArbSlippageResults :=
  { buy_leg := some buyLegOK, sell_leg := some sellLegOK
    buy_venue := some "venue_a", sell_venue := some "venue_b" }

/-- C1 witness: on legs that satisfy every amended condition the
assessment is feasible. -/
theorem C1_witness :
    resultsOK.buy_leg = some buyLegOK ∧ resultsOK.sell_leg = some sellLegOK ∧
    (assess_arbitrage_feasibility resultsOK (2/100) (1/100)).feasible = true := by
  have hmax : (assess_arbitrage_feasibility resultsOK (2/100) (1/100)).max_size = 100 := by
    simp [assess_arbitrage_feasibility, resultsOK, buyLegOK, sellLegOK, pyTruthy]
  refine ⟨rfl, rfl,
    (C1_feasibility resultsOK buyLegOK sellLegOK (2/100) (1/100) rfl rfl).1.mpr
      ⟨rfl, rfl, by norm_num [buyLegOK], by norm_num [sellLegOK], ?_, ?_⟩⟩
  · intro h
    norm_num [buyLegOK, sellLegOK]
  · rw [hmax]
    norm_num

/-! ### Event model and cross-venue event matching -/

/-- Transcribed from src/event_model.py, dataclass `ContractSide`
(lines 21-29): one side of a contract. -/
structure ContractSide where
  side_id : String
  name : String
  price : ℚ
  implied_probability : ℚ
  volume_24h : Option ℚ := none
  liquidity : Option ℚ := none
deriving DecidableEq

/-- Projection of src/event_model.py's dataclass `Event` (lines
31-66) onto the fields read by the matcher and the detector: venue
and market type are the enums' `.value` strings, and the resolution
deadline is a day number (an integer), so that the Python
`(a.deadline - b.deadline).days` is `a.deadline - b.deadline`. -/
structure Event where
  event_id : String
  title : String
  deadline : ℤ
  venue : String
  market_type : String
  contract_sides : List ContractSide
  resolution_source_url : Option String := none
deriving DecidableEq

/-- Transcribed from src/event_matcher.py, dataclass `MatchResult`
(lines 13-21). -/
structure MatchResult where
  event_a : Event
  event_b : Event
  confidence_score : ℚ
  match_strategies : List String
  risk_factors : List String
  human_review_required : Bool
deriving DecidableEq

/-- The outcome of each of the six matching strategies on a pair of
events: `some v` models the strategy returning the float `v`, `none`
models the strategy raising an exception (the source's strategy
methods, src/event_matcher.py lines 105-133, are unimplemented stubs
that return `None`, which makes the comparison `score > 0` raise a
`TypeError` that line 66 catches). -/
structure StrategyResults where
  exact_title : Option ℚ
  fuzzy_title : Option ℚ
  entity_overlap : Option ℚ
  semantic_embedding : Option ℚ
  resolution_criteria : Option ℚ
  temporal_alignment : Option ℚ
deriving DecidableEq

/-- The strategy outcomes in the source's iteration order
(src/event_matcher.py lines 28-35, insertion order of the dict). -/
def strategyOutcomes (r : StrategyResults) : List (String × Option ℚ) :=
  [("exact_title", r.exact_title), ("fuzzy_title", r.fuzzy_title),
   ("entity_overlap", r.entity_overlap), ("semantic_embedding", r.semantic_embedding),
   ("resolution_criteria", r.resolution_criteria), ("temporal_alignment", r.temporal_alignment)]

/-- The entry a strategy contributes to the `scores` dict
(src/event_matcher.py lines 60-68): present exactly when the strategy
ran without raising and returned a score > 0. -/
def contributingScore : Option ℚ → Option ℚ
  | some v => if 0 < v then some v else none
  | none => none

/-- Lookup in the `scores` dict by strategy name. -/
def scoreOf (r : StrategyResults) (name : String) : Option ℚ :=
  if name = "exact_title" then contributingScore r.exact_title
  else if name = "fuzzy_title" then contributingScore r.fuzzy_title
  else if name = "entity_overlap" then contributingScore r.entity_overlap
  else if name = "semantic_embedding" then contributingScore r.semantic_embedding
  else if name = "resolution_criteria" then contributingScore r.resolution_criteria
  else if name = "temporal_alignment" then contributingScore r.temporal_alignment
  else none

/-- The fixed strategy weights of src/event_matcher.py lines 74-81. -/
def weights : List (String × ℚ) :=
  [("exact_title", 3/10), ("fuzzy_title", 1/5), ("entity_overlap", 1/5),
   ("semantic_embedding", 3/20), ("resolution_criteria", 1/10),
   ("temporal_alignment", 1/20)]

/-- Transcribed from src/event_matcher.py lines 83-84:
`sum(scores.get(strategy, 0) * weight for strategy, weight in
weights.items())`. -/
def finalScore (r : StrategyResults) : ℚ :=
  (weights.map (fun w => (scoreOf r w.1).getD 0 * w.2)).sum

/-- The `strategies_used` list (src/event_matcher.py lines 63-65):
the names of the strategies contributing a positive score, in
iteration order. -/
def strategiesUsed (r : StrategyResults) : List String :=
  (strategyOutcomes r).filterMap
    (fun p => if (contributingScore p.2).isSome then some p.1 else none)

/-- Whether the `scores` dict is nonempty (src/event_matcher.py line
70: `if not scores: return None`). -/
def hasContribution (r : StrategyResults) : Bool :=
  (strategyOutcomes r).any (fun p => (contributingScore p.2).isSome)

/-- Python truthiness of an optional string: `None` and `""` are
falsy. -/
def pyTruthyStr : Option String → Bool
  | none => false
  | some s => decide (s ≠ "")

/-- Transcribed from src/event_matcher.py,
`EventMatcher._detect_risk_factors` (lines 135-155): flags different
(truthy) resolution source urls, a deadline mismatch above a week,
and differing market types. -/
def detect_risk_factors (event_a event_b : Event) : List String :=
  (if pyTruthyStr event_a.resolution_source_url &&
      pyTruthyStr event_b.resolution_source_url &&
      decide (event_a.resolution_source_url ≠ event_b.resolution_source_url) then
     ["different_resolution_sources"] else []) ++
  (if 7 < |event_a.deadline - event_b.deadline| then ["deadline_mismatch_gt_week"] else []) ++
  (if event_a.market_type ≠ event_b.market_type then ["different_market_types"] else [])

/-- The matcher: its confidence threshold (default 0.75) plus the
strategy outcomes, abstracted as a function from the pair of events
to the six outcomes. -/
structure EventMatcher where
  confidence_threshold : ℚ
  strategies : Event → Event → StrategyResults

/-- Transcribed from src/event_matcher.py,
`EventMatcher._evaluate_match` (lines 52-103): collects positive
strategy scores (strategies that raise are skipped), returns `none`
when no strategy contributed, and otherwise the weighted match result
with its risk factors and human-review flag. -/
def evaluate_match (matcher : EventMatcher) (event_a event_b : Event) :
    Option MatchResult :=
  let r := matcher.strategies event_a event_b
  if hasContribution r then
    let final_score := finalScore r
    let risk_factors := detect_risk_factors event_a event_b
    some { event_a := event_a, event_b := event_b
           confidence_score := final_score
           match_strategies := strategiesUsed r
           risk_factors := risk_factors
           human_review_required :=
             decide (final_score < 9/10) || decide (risk_factors ≠ []) ||
             decide (1 < |event_a.deadline - event_b.deadline|) }
  else none

/-- Transcribed from src/event_matcher.py, `EventMatcher.find_matches`
(lines 37-50): for every cross pair, skips same-venue pairs, and
keeps an evaluated match only when its confidence reaches the
matcher's threshold. -/
def find_matches (matcher : EventMatcher) (events_a events_b : List Event) :
    List MatchResult :=
  events_a.flatMap (fun event_a => events_b.filterMap (fun event_b =>
    if event_a.venue = event_b.venue then none
    else
      match evaluate_match matcher event_a event_b with
      | some mr =>
        if matcher.confidence_threshold ≤ mr.confidence_score then some mr else none
      | none => none))

/-- The source's strategy methods (src/event_matcher.py lines
105-133) are stubs returning `None`, so every strategy abstains. -/
def stubStrategies : Event → Event → StrategyResults := fun _ _ =>
  { exact_title := none, fuzzy_title := none, entity_overlap := none
    semantic_embedding := none, resolution_criteria := none, temporal_alignment := none }

/-- Transcribed from src/event_matcher.py, `EventMatcher.__init__`
(lines 26-35): stores the threshold and the strategy table.  The body
contains no validation and no raise, so construction always
succeeds; `Except` records that no error can be produced. -/
def EventMatcher.init (confidence_threshold : ℚ) : Except String EventMatcher :=
  Except.ok { confidence_threshold := confidence_threshold, strategies := stubStrategies }

/-! ### Arbitrage detection engine -/

/-- One venue's fee schedule (src/arbitrage_engine.py lines 61-72);
absent keys default to 0 as in `fees.get(..., Decimal("0"))`. -/
structure VenueFees where
  trading_fee : ℚ := 0
  withdrawal_fee : ℚ := 0
  gas_estimate : ℚ := 0
  network_fee : ℚ := 0
deriving DecidableEq

/-- The venue fee dictionary of src/arbitrage_engine.py lines 61-72:
polymarket 2% trading fee and 0.005 gas, predyx 1% trading fee and
0.0001 network fee, anything else a missing entry (all fees 0). -/
def venue_fees (venue : String) : VenueFees :=
  if venue = "polymarket" then { trading_fee := 2/100, gas_estimate := 5/1000 }
  else if venue = "predyx" then { trading_fee := 1/100, network_fee := 1/10000 }
  else {}

/-- The detector's configuration (src/arbitrage_engine.py lines
54-58); the source defaults are min_edge_threshold = 0.02 and
max_slippage_tolerance = 0.01. -/
structure ArbitrageDetector where
  min_edge_threshold : ℚ
  max_slippage_tolerance : ℚ
deriving DecidableEq

/-- Transcribed from src/arbitrage_engine.py,
`ArbitrageDetector.__init__` (lines 54-72): stores the two thresholds
and the fee table.  No validation, no raise — construction always
succeeds. -/
def ArbitrageDetector.init (min_edge_threshold max_slippage_tolerance : ℚ) :
    Except String ArbitrageDetector :=
  Except.ok { min_edge_threshold := min_edge_threshold
              max_slippage_tolerance := max_slippage_tolerance }

/-- Transcribed from src/arbitrage_engine.py,
`ArbitrageDetector._calculate_total_cost` (lines 191-205): price ×
(1 + trading fee) plus the fixed gas and network costs. -/
def calculate_total_cost (venue : String) (base_price : ℚ) : ℚ :=
  let fees := venue_fees venue
  base_price * (1 + fees.trading_fee) + (fees.gas_estimate + fees.network_fee)

/-- Transcribed from src/arbitrage_engine.py,
`ArbitrageDetector._find_contract_side` (lines 184-189): first
contract side whose name matches case-insensitively. -/
def find_contract_side (event : Event) (side : String) : Option ContractSide :=
  event.contract_sides.find? (fun cs => cs.name.toUpper == side.toUpper)

/-- Transcribed from src/arbitrage_engine.py,
`ArbitrageDetector._estimate_slippage` (lines 207-221): the
liquidity-bucketed slippage heuristic; falsy liquidity (absent or 0)
gives the 0.5% default. -/
def estimate_slippage (contract_side : ContractSide) : ℚ :=
  match contract_side.liquidity with
  | none => 5/1000
  | some liq =>
    if liq = 0 then 5/1000
    else if 10000 < liq then 1/1000
    else if 1000 < liq then 3/1000
    else 1/100

/-- Transcribed from src/arbitrage_engine.py,
`ArbitrageDetector._calculate_max_position` (lines 223-231): 10% of
liquidity capped at 10000, defaulting to 100 on falsy liquidity. -/
def calculate_max_position (contract_side : ContractSide) : ℚ :=
  match contract_side.liquidity with
  | none => 100
  | some liq => if liq = 0 then 100 else min (liq * (1/10)) 10000

/-- Transcribed from src/arbitrage_engine.py,
`ArbitrageDetector._calculate_timing_risk` (lines 233-237). -/
def calculate_timing_risk (event_a event_b : Event) : ℚ :=
  min (((|event_a.deadline - event_b.deadline| : ℤ) : ℚ) / 7) 1

/-- Transcribed from src/arbitrage_engine.py,
`ArbitrageDetector._calculate_resolution_risk` (lines 239-247). -/
def calculate_resolution_risk (mr : MatchResult) : ℚ :=
  min ((1 - mr.confidence_score) + (mr.risk_factors.length : ℚ) * (1/10)) 1

/-- Transcribed from src/arbitrage_engine.py, dataclass
`ArbitrageOpportunity` (lines 18-49), without the timestamp fields
(the source's `detected_at`/`expires_at`) and with the always-pure
arbitrage type omitted. -/
structure ArbitrageOpportunity where
  match_result : MatchResult
  buy_venue : String
  buy_side : String
  buy_price : ℚ
  sell_venue : String
  sell_side : String
  sell_price : ℚ
  gross_edge : ℚ
  net_edge : ℚ
  max_position_size : ℚ
  expected_profit : ℚ
  slippage_estimate : ℚ
  timing_risk_score : ℚ
  resolution_risk_score : ℚ
  confidence_score : ℚ
deriving DecidableEq

/-- Transcribed from src/arbitrage_engine.py,
`ArbitrageDetector._check_binary_arbitrage` (lines 104-182): costs
both legs with fees, requires total cost < 1, gross edge ≥ the edge
threshold and heuristic slippage within tolerance, then builds the
opportunity.  The return statement (lines 159-182) passes
`detected_at=datetime.utcnow()` (line 181), but the module never
imports `datetime`, so reaching the emission path raises `NameError`
instead of returning the opportunity: `Except.error` models that
uncaught exception, `Except.ok none` the four deliberate filter
returns.  (`scan_for_arbitrage`, lines 74-102, additionally filters
match results below confidence 0.7 before calling this.) -/
def check_binary_arbitrage (detector : ArbitrageDetector) (mr : MatchResult)
    (side_a side_b : String) : Except String (Option ArbitrageOpportunity) :=
  match find_contract_side mr.event_a side_a, find_contract_side mr.event_b side_b with
  | some side_a_contract, some side_b_contract =>
    let cost_a := calculate_total_cost mr.event_a.venue side_a_contract.price
    let cost_b := calculate_total_cost mr.event_b.venue side_b_contract.price
    let total_cost := cost_a + cost_b
    if 1 ≤ total_cost then Except.ok none
    else
      let gross_edge := 1 - total_cost
      if gross_edge < detector.min_edge_threshold then Except.ok none
      else
        let total_slippage :=
          estimate_slippage side_a_contract + estimate_slippage side_b_contract
        if detector.max_slippage_tolerance < total_slippage then Except.ok none
        else
          Except.error "NameError: name datetime is not defined"
  | _, _ => Except.ok none

/-- Whether a `_check_binary_arbitrage` outcome is an actually
emitted ArbitrageOpportunity (a normal return of a non-None value). -/
def emitsOpportunity : Except String (Option ArbitrageOpportunity) → Bool
  | Except.ok (some _) => true
  | _ => false

/-! ### Lemmas about the matcher -/

/-- Helper: a strategy contributes a score entry iff it returned a
positive score. -/
theorem contributingScore_isSome (o : Option ℚ) :
    ((contributingScore o).isSome = true) ↔ ∃ v, o = some v ∧ 0 < v := by
  cases o with
  | none => simp [contributingScore]
  | some v => by_cases h : 0 < v <;> simp [contributingScore, h]

/-- Helper: the weighted sum over the fixed weight table expands to
the documented linear combination of the six contributed scores. -/
theorem finalScore_expand (r : StrategyResults) :
    finalScore r =
      (3/10) * (contributingScore r.exact_title).getD 0 +
      (1/5) * (contributingScore r.fuzzy_title).getD 0 +
      (1/5) * (contributingScore r.entity_overlap).getD 0 +
      (3/20) * (contributingScore r.semantic_embedding).getD 0 +
      (1/10) * (contributingScore r.resolution_criteria).getD 0 +
      (1/20) * (contributingScore r.temporal_alignment).getD 0 := by
  simp [finalScore, weights, scoreOf]
  ring

/-- Helper: a strategy name appears among the used strategies iff that
strategy returned a positive score. -/
theorem strategiesUsed_spec (r : StrategyResults) :
    ("exact_title" ∈ strategiesUsed r ↔ ∃ v, r.exact_title = some v ∧ 0 < v) ∧
    ("fuzzy_title" ∈ strategiesUsed r ↔ ∃ v, r.fuzzy_title = some v ∧ 0 < v) ∧
    ("entity_overlap" ∈ strategiesUsed r ↔ ∃ v, r.entity_overlap = some v ∧ 0 < v) ∧
    ("semantic_embedding" ∈ strategiesUsed r ↔ ∃ v, r.semantic_embedding = some v ∧ 0 < v) ∧
    ("resolution_criteria" ∈ strategiesUsed r ↔ ∃ v, r.resolution_criteria = some v ∧ 0 < v) ∧
    ("temporal_alignment" ∈ strategiesUsed r ↔ ∃ v, r.temporal_alignment = some v ∧ 0 < v) := by
  refine ⟨?_, ?_, ?_, ?_, ?_, ?_⟩ <;>
    simp [strategiesUsed, strategyOutcomes, Option.ite_none_right_eq_some,
      contributingScore_isSome]

/-- Helper: everything `_evaluate_match` writes into a returned
MatchResult, in terms of the strategy outcomes. -/
theorem evaluate_match_some (matcher : EventMatcher) (ea eb : Event) (mr : MatchResult)
    (h : evaluate_match matcher ea eb = some mr) :
    mr.event_a = ea ∧ mr.event_b = eb ∧
    mr.confidence_score = finalScore (matcher.strategies ea eb) ∧
    mr.match_strategies = strategiesUsed (matcher.strategies ea eb) ∧
    mr.risk_factors = detect_risk_factors ea eb ∧
    mr.human_review_required =
      (decide (finalScore (matcher.strategies ea eb) < 9/10) ||
       decide (detect_risk_factors ea eb ≠ []) ||
       decide (1 < |ea.deadline - eb.deadline|)) := by
  by_cases hc : hasContribution (matcher.strategies ea eb) = true
  · simp only [evaluate_match, hc, if_true, Option.some.injEq] at h
    subst h
    exact ⟨rfl, rfl, rfl, rfl, rfl, rfl⟩
  · rw [Bool.not_eq_true] at hc
    simp only [evaluate_match, hc] at h
    simp at h

/-- C5: an emitted MatchResult's confidence is the fixed-weight
linear combination 0.30/0.20/0.20/0.15/0.10/0.05 over exactly the
strategies that returned a score > 0 (abstaining, zero-returning and
raising strategies contribute 0 and are absent from
match_strategies), and a pair with no contributing strategy yields no
MatchResult. -/
theorem C5_confidence_weighted (matcher : EventMatcher) (event_a event_b : Event) :
    (∀ mr, evaluate_match matcher event_a event_b = some mr →
      (mr.confidence_score =
        (3/10) * (contributingScore (matcher.strategies event_a event_b).exact_title).getD 0 +
        (1/5) * (contributingScore (matcher.strategies event_a event_b).fuzzy_title).getD 0 +
        (1/5) * (contributingScore (matcher.strategies event_a event_b).entity_overlap).getD 0 +
        (3/20) * (contributingScore (matcher.strategies event_a event_b).semantic_embedding).getD 0 +
        (1/10) * (contributingScore (matcher.strategies event_a event_b).resolution_criteria).getD 0 +
        (1/20) * (contributingScore (matcher.strategies event_a event_b).temporal_alignment).getD 0) ∧
      (("exact_title" ∈ mr.match_strategies ↔
          ∃ v, (matcher.strategies event_a event_b).exact_title = some v ∧ 0 < v) ∧
       ("fuzzy_title" ∈ mr.match_strategies ↔
          ∃ v, (matcher.strategies event_a event_b).fuzzy_title = some v ∧ 0 < v) ∧
       ("entity_overlap" ∈ mr.match_strategies ↔
          ∃ v, (matcher.strategies event_a event_b).entity_overlap = some v ∧ 0 < v) ∧
       ("semantic_embedding" ∈ mr.match_strategies ↔
          ∃ v, (matcher.strategies event_a event_b).semantic_embedding = some v ∧ 0 < v) ∧
       ("resolution_criteria" ∈ mr.match_strategies ↔
          ∃ v, (matcher.strategies event_a event_b).resolution_criteria = some v ∧ 0 < v) ∧
       ("temporal_alignment" ∈ mr.match_strategies ↔
          ∃ v, (matcher.strategies event_a event_b).temporal_alignment = some v ∧ 0 < v))) ∧
    (hasContribution (matcher.strategies event_a event_b) = false →
      evaluate_match matcher event_a event_b = none) := by
  constructor
  · intro mr h
    have H := evaluate_match_some matcher event_a event_b mr h
    refine ⟨?_, ?_⟩
    · rw [H.2.2.1, finalScore_expand]
    · rw [H.2.2.2.1]
      exact strategiesUsed_spec _
  · intro h
    simp [evaluate_match, h]

/-- C6: every match returned by `find_matches` pairs events from
different venues and clears the matcher's confidence threshold
(default 0.75). -/
theorem C6_cross_venue_threshold (matcher : EventMatcher) (events_a events_b : List Event) :
    ∀ mr ∈ find_matches matcher events_a events_b,
      mr.event_a.venue ≠ mr.event_b.venue ∧
      matcher.confidence_threshold ≤ mr.confidence_score := by
  intro mr hmr
  simp only [find_matches, List.mem_flatMap, List.mem_filterMap] at hmr
  obtain ⟨ea, hea, eb, heb, hcond⟩ := hmr
  by_cases hv : ea.venue = eb.venue
  · rw [if_pos hv] at hcond
    exact absurd hcond (by simp)
  · rw [if_neg hv] at hcond
    cases hev : evaluate_match matcher ea eb with
    | none =>
      rw [hev] at hcond
      exact absurd hcond (by simp)
    | some r =>
      simp only [hev] at hcond
      by_cases hth : matcher.confidence_threshold ≤ r.confidence_score
      · rw [if_pos hth] at hcond
        have hrm : r = mr := Option.some.inj hcond
        have H := evaluate_match_some matcher ea eb r hev
        rw [← hrm, H.1, H.2.1]
        exact ⟨hv, hth⟩
      · rw [if_neg hth] at hcond
        exact absurd hcond (by simp)

/-- C7: an emitted MatchResult requires human review iff confidence
< 0.9, or some risk factor was detected, or the deadlines differ by
more than one day; in particular every accepted result with
confidence in [0.75, 0.9) still requires review. -/
theorem C7_review_gate (matcher : EventMatcher) (event_a event_b : Event) (mr : MatchResult)
    (h : evaluate_match matcher event_a event_b = some mr) :
    (mr.human_review_required = true ↔
      (mr.confidence_score < 9/10 ∨ mr.risk_factors ≠ [] ∨
       1 < |event_a.deadline - event_b.deadline|)) ∧
    (3/4 ≤ mr.confidence_score → mr.confidence_score < 9/10 →
      mr.human_review_required = true) := by
  have H := evaluate_match_some matcher event_a event_b mr h
  have hiff : mr.human_review_required = true ↔
      (mr.confidence_score < 9/10 ∨ mr.risk_factors ≠ [] ∨
       1 < |event_a.deadline - event_b.deadline|) := by
    rw [H.2.2.2.2.2, ← H.2.2.1, ← H.2.2.2.2.1]
    simp [Bool.or_eq_true, decide_eq_true_eq, or_assoc]
  exact ⟨hiff, fun _ h2 => hiff.mpr (Or.inl h2)⟩

/-- A polymarket event with no contract sides, deadline day 20000. -/
def evPoly : Event :=
  { event_id := "ev_p", title := "Example event", deadline := 20000
    venue := "polymarket", market_type := "binary", contract_sides := [] }

/-- The same prediction listed on predyx. -/
def evPredyx : Event :=
  { event_id := "ev_q", title := "Example event", deadline := 20000
    venue := "predyx", market_type := "binary", contract_sides := [] }

/-- Strategy outcomes where every strategy returns 1. -/
def unitStrategies : Event → Event → StrategyResults := fun _ _ =>
  { exact_title := some 1, fuzzy_title := some 1, entity_overlap := some 1
    semantic_embedding := some 1, resolution_criteria := some 1, temporal_alignment := some 1 }

/-- A matcher at the default threshold whose strategies all return 1. -/
def matcherEx : EventMatcher :=
  { confidence_threshold := 3/4, strategies := unitStrategies }

/-- The match result `matcherEx` produces on the example pair. -/
def mrEx : MatchResult :=
  { event_a := evPoly, event_b := evPredyx, confidence_score := 1
    match_strategies := ["exact_title", "fuzzy_title", "entity_overlap",
      "semantic_embedding", "resolution_criteria", "temporal_alignment"]
    risk_factors := [], human_review_required := false }

/-- Helper: evaluating the example pair under `matcherEx`. -/
theorem evalEx : evaluate_match matcherEx evPoly evPredyx = some mrEx := by
  simp [evaluate_match, matcherEx, unitStrategies, hasContribution, strategyOutcomes,
    contributingScore, finalScore, weights, scoreOf, strategiesUsed, detect_risk_factors,
    pyTruthyStr, mrEx, evPoly, evPredyx]
  norm_num

/-- Helper: the example match survives `find_matches` on the
singleton lists. -/
theorem memEx : mrEx ∈ find_matches matcherEx [evPoly] [evPredyx] := by
  have hv : evPoly.venue = evPredyx.venue ↔ False := by simp [evPoly, evPredyx]
  have hth : matcherEx.confidence_threshold ≤ mrEx.confidence_score := by
    norm_num [matcherEx, mrEx]
  simp [find_matches, hv, evalEx, hth]

/-- Strategy outcomes where the first four strategies return 1 and
the last two abstain, for a confidence of 0.85. -/
def strategies85 : Event → Event → StrategyResults := fun _ _ =>
  { exact_title := some 1, fuzzy_title := some 1, entity_overlap := some 1
    semantic_embedding := some 1, resolution_criteria := none, temporal_alignment := none }

/-- A matcher at the default threshold scoring the example pair at
0.85. -/
def matcher85 : EventMatcher :=
  { confidence_threshold := 3/4, strategies := strategies85 }

/-- The match result `matcher85` produces on the example pair:
confidence 0.85 ∈ [0.75, 0.9), so review is required. -/
def mr85 : MatchResult :=
  { event_a := evPoly, event_b := evPredyx, confidence_score := 17/20
    match_strategies := ["exact_title", "fuzzy_title", "entity_overlap",
      "semantic_embedding"]
    risk_factors := [], human_review_required := true }

/-- Helper: evaluating the example pair under `matcher85`. -/
theorem eval85 : evaluate_match matcher85 evPoly evPredyx = some mr85 := by
  simp [evaluate_match, matcher85, strategies85, hasContribution, strategyOutcomes,
    contributingScore, finalScore, weights, scoreOf, strategiesUsed, detect_risk_factors,
    pyTruthyStr, mr85, evPoly, evPredyx]
  norm_num

/-- C5 witness: the weighted-sum conclusion instantiated on
`matcherEx`, where all six strategies contribute 1 and the confidence
is exactly 1. -/
theorem C5_witness :
    evaluate_match matcherEx evPoly evPredyx = some mrEx ∧ mrEx.confidence_score = 1 := by
  have H := ((C5_confidence_weighted matcherEx evPoly evPredyx).1 mrEx evalEx).1
  refine ⟨evalEx, ?_⟩
  rw [H]
  norm_num [matcherEx, unitStrategies, contributingScore]

/-- C6 witness: the example match is returned and satisfies both
filter conditions. -/
theorem C6_witness :
    mrEx ∈ find_matches matcherEx [evPoly] [evPredyx] ∧
    mrEx.event_a.venue ≠ mrEx.event_b.venue ∧
    matcherEx.confidence_threshold ≤ mrEx.confidence_score := by
  have H := C6_cross_venue_threshold matcherEx [evPoly] [evPredyx] mrEx memEx
  exact ⟨memEx, H.1, H.2⟩

/-- C7 witness: a result with confidence 0.85 ∈ [0.75, 0.9) has
human_review_required = true. -/
theorem C7_witness :
    evaluate_match matcher85 evPoly evPredyx = some mr85 ∧
    (3/4 : ℚ) ≤ mr85.confidence_score ∧ mr85.confidence_score < 9/10 ∧
    mr85.human_review_required = true := by
  have h1 : (3/4 : ℚ) ≤ mr85.confidence_score := by norm_num [mr85]
  have h2 : mr85.confidence_score < 9/10 := by norm_num [mr85]
  exact ⟨eval85, h1, h2, (C7_review_gate matcher85 evPoly evPredyx mr85 eval85).2 h1 h2⟩

/-- A YES side at 0.55 with deep liquidity. -/
def yesContract55 : ContractSide :=
  { side_id := "s_yes", name := "YES", price := 11/20, implied_probability := 11/20
    liquidity := some 20000 }

/-- A NO side at 0.40 with deep liquidity. -/
def noContract40 : ContractSide :=
  { side_id := "s_no", name := "NO", price := 2/5, implied_probability := 2/5
    liquidity := some 20000 }

/-- A binary event on a venue with no fee entry (all fees 0). -/
def eventFeeFreeA : Event :=
  { event_id := "ev_a", title := "Example outcome", deadline := 20000
    venue := "venue_x", market_type := "binary", contract_sides := [yesContract55] }

/-- The matching binary event on a second fee-free venue. -/
def eventFeeFreeB : Event :=
  { event_id := "ev_b", title := "Example outcome", deadline := 20000
    venue := "venue_y", market_type := "binary", contract_sides := [noContract40] }

/-- A confidence-passing match of the two fee-free events, with leg
costs 0.55 and 0.40. -/
def matchFeeFree : MatchResult :=
  { event_a := eventFeeFreeA, event_b := eventFeeFreeB, confidence_score := 9/10
    match_strategies := ["exact_title"], risk_factors := [], human_review_required := false }

/-- A YES side at 0.60. -/
def yesContract60 : ContractSide :=
  { side_id := "s_yes", name := "YES", price := 3/5, implied_probability := 3/5
    liquidity := some 20000 }

/-- A NO side at 0.45. -/
def noContract45 : ContractSide :=
  { side_id := "s_no", name := "NO", price := 9/20, implied_probability := 9/20
    liquidity := some 20000 }

/-- The fee-free event with the 0.60 YES side. -/
def eventFeeFreeA2 : Event :=
  { event_id := "ev_a2", title := "Example outcome", deadline := 20000
    venue := "venue_x", market_type := "binary", contract_sides := [yesContract60] }

/-- The fee-free event with the 0.45 NO side. -/
def eventFeeFreeB2 : Event :=
  { event_id := "ev_b2", title := "Example outcome", deadline := 20000
    venue := "venue_y", market_type := "binary", contract_sides := [noContract45] }

/-- A match whose leg costs 0.60 + 0.45 sum to 1.05 ≥ 1. -/
def matchFeeFree2 : MatchResult :=
  { event_a := eventFeeFreeA2, event_b := eventFeeFreeB2, confidence_score := 9/10
    match_strategies := ["exact_title"], risk_factors := [], human_review_required := false }

/-- A detector at the source's default thresholds: min edge 0.02, max
slippage tolerance 0.01. -/
def detectorDefault : ArbitrageDetector :=
  { min_edge_threshold := 2/100, max_slippage_tolerance := 1/100 }

/-- C4 (code bug): the decision logic is as the claim states — per-leg
total cost is price × (1 + trading fee) + fixed gas/network costs
(2%+0.005 on polymarket, 1%+0.0001 on predyx, 0 elsewhere), the
0.55/0.40 legs cost 0.95 < 1 with gross edge 0.05 clearing the
default 0.02 threshold, and 0.60 + 0.45 ≥ 1 is filtered — but the
emission branch never returns an ArbitrageOpportunity: line 181
evaluates `datetime.utcnow()` and the module never imports
`datetime`, so exactly where the claim says the opportunity is
emitted the code raises NameError, and no input makes
`_check_binary_arbitrage` emit. -/
theorem C4_binary_arbitrage_name_error :
    (∀ p : ℚ, calculate_total_cost "polymarket" p = p * (1 + 2/100) + 5/1000) ∧
    (∀ p : ℚ, calculate_total_cost "predyx" p = p * (1 + 1/100) + 1/10000) ∧
    (∀ (v : String) (p : ℚ), calculate_total_cost v p =
       p * (1 + (venue_fees v).trading_fee) +
       ((venue_fees v).gas_estimate + (venue_fees v).network_fee)) ∧
    (∀ (detector : ArbitrageDetector) (mr : MatchResult) (side_a side_b : String),
       emitsOpportunity (check_binary_arbitrage detector mr side_a side_b) = false) ∧
    (calculate_total_cost matchFeeFree.event_a.venue yesContract55.price +
       calculate_total_cost matchFeeFree.event_b.venue noContract40.price = 19/20) ∧
    detectorDefault.min_edge_threshold ≤ 1 - (19/20 : ℚ) ∧
    check_binary_arbitrage detectorDefault matchFeeFree "YES" "NO" =
      Except.error "NameError: name datetime is not defined" ∧
    check_binary_arbitrage detectorDefault matchFeeFree2 "YES" "NO" = Except.ok none := by
  refine ⟨?_, ?_, ?_, ?_, ?_, ?_, ?_, ?_⟩
  · intro p
    simp [calculate_total_cost, venue_fees]
  · intro p
    simp [calculate_total_cost, venue_fees]
  · intro v p
    rfl
  · intro detector mr side_a side_b
    cases hca : find_contract_side mr.event_a side_a with
    | none => simp [check_binary_arbitrage, hca, emitsOpportunity]
    | some ca =>
      cases hcb : find_contract_side mr.event_b side_b with
      | none => simp [check_binary_arbitrage, hca, hcb, emitsOpportunity]
      | some cb =>
        simp only [check_binary_arbitrage, hca, hcb]
        split_ifs <;> rfl
  · simp [matchFeeFree, eventFeeFreeA, eventFeeFreeB, yesContract55, noContract40,
      calculate_total_cost, venue_fees]
    norm_num
  · norm_num [detectorDefault]
  · simp [check_binary_arbitrage, find_contract_side, matchFeeFree, eventFeeFreeA,
      eventFeeFreeB, yesContract55, noContract40, calculate_total_cost, venue_fees,
      estimate_slippage, detectorDefault]
    norm_num
  · simp [check_binary_arbitrage, find_contract_side, matchFeeFree2, eventFeeFreeA2,
      eventFeeFreeB2, yesContract60, noContract45, calculate_total_cost, venue_fees,
      detectorDefault]
    norm_num

/-- C9 counterexample: constructing the detector and the matcher with
negative thresholds raises nothing — both constructors succeed,
contradicting the claim that misconfiguration is detected at
construction time. -/
theorem C9_counterexample :
    (ArbitrageDetector.init (-1) (-1)).isOk = true ∧
    (EventMatcher.init (-1)).isOk = true :=
  ⟨rfl, rfl⟩

/-- C9 (amended): the constructors perform no validation at all —
for every parameter values, including negative thresholds,
construction succeeds and stores the values unchanged; no
construction-time error exists. -/
theorem C9_constructors_never_raise (e m c : ℚ) :
    (ArbitrageDetector.init e m).isOk = true ∧
    ArbitrageDetector.init e m =
      Except.ok { min_edge_threshold := e, max_slippage_tolerance := m } ∧
    (EventMatcher.init c).isOk = true :=
  ⟨rfl, rfl, rfl⟩

end PolyArb
